import Mathlib

/-
Shallow embedding of the job-board backend (Express + Mongoose controllers):
  - data model: models/Job.ts, models/Application.ts (src/unnamed/part_005),
    models/Chat.ts
  - application workflow: controllers/applicationController.ts
  - job registry: controllers/jobController.ts
  - chat side-channel: the chat controller (markChatAsRead and friends)
  - routes: routes/jobRoutes.ts (src/unnamed/part_001)
Document ids are Nat, Mongo ObjectIds being opaque identifiers; statuses are
the literal strings the JS code compares against; the document store is a
Store structure holding the three collections, with insert operations that
enforce the two unique indexes declared in the schemas.
-/

namespace JobBoard

/-- The five Application statuses of ApplicationSchema, the list the
controllers test with includes(...). -/
def appStatusValues : List String :=
  ["pending", "reviewed", "interviewing", "rejected", "accepted"]

/-- The three Job statuses of JobSchema. -/
def jobStatusValues : List String := ["active", "closed", "draft"]

/-- A Job document (models/Job.ts). Optional schema fields that no claim
reads (salary, applicationLink, deadline) are carried as plain strings. -/
structure Job where
  id : Nat
  company : Nat
  title : String
  location : String
  description : String
  requirements : List String
  type : String
  salary : Option String
  applicationLink : Option String
  skills : List String
  experience : String
  education : String
  deadline : Option String
  status : String
  postedAt : Nat
deriving DecidableEq, Repr

/-- An Application document (models/Application.ts, src/unnamed/part_005). -/
structure Application where
  id : Nat
  job : Nat
  user : Nat
  company : Nat
  coverLetter : Option String
  resume : Option String
  status : String
  appliedAt : Nat
deriving DecidableEq, Repr

/-- One chat message (messageSchema in models/Chat.ts). -/
structure Message where
  sender : Nat
  content : String
  timestamp : Nat
  isRead : Bool
deriving DecidableEq, Repr

/-- A Chat document (chatSchema in models/Chat.ts). -/
structure Chat where
  id : Nat
  applicationId : Nat
  userId : Nat
  companyId : Nat
  jobId : Nat
  messages : List Message
deriving DecidableEq, Repr

/-- The document store: the three collections plus a fresh-id counter. -/
structure Store where
  jobs : List Job
  applications : List Application
  chats : List Chat
  nextId : Nat
deriving DecidableEq, Repr

/-- ApplicationSchema.index({ job: 1, user: 1 }, { unique: true }): saving an
Application whose (job, user) pair is already present is rejected by the
store (mongoose save throws a duplicate-key error). -/
def Store.insertApplication (s : Store) (a : Application) : Option Store :=
  if s.applications.any (fun b => b.job == a.job && b.user == a.user) then none
  else some { s with applications := s.applications ++ [a] }

/-- chatSchema.applicationId is declared unique: saving a Chat whose
applicationId is already present is rejected by the store. -/
def Store.insertChat (s : Store) (c : Chat) : Option Store :=
  if s.chats.any (fun d => d.applicationId == c.applicationId) then none
  else some { s with chats := s.chats ++ [c] }

/-- Unique-id well-formedness of the jobs collection (Mongo _id is unique). -/
@[reducible] def Store.jobsUnique (s : Store) : Prop :=
  ∀ a ∈ s.jobs, ∀ b ∈ s.jobs, a.id = b.id → a = b

/-- Unique-id well-formedness of the applications collection. -/
@[reducible] def Store.appsUnique (s : Store) : Prop :=
  ∀ a ∈ s.applications, ∀ b ∈ s.applications, a.id = b.id → a = b

/-- Unique-id well-formedness of the chats collection. -/
@[reducible] def Store.chatsUnique (s : Store) : Prop :=
  ∀ a ∈ s.chats, ∀ b ∈ s.chats, a.id = b.id → a = b

/-- The authenticated actor: the auth middleware attaches either req.user or
req.company, never both. -/
inductive Actor where
  | user (id : Nat)
  | company (id : Nat)
deriving DecidableEq, Repr

/-- The id of the actor (req.user.id or req.company.id). -/
def Actor.id : Actor → Nat
  | .user i => i
  | .company i => i

/-- Result of an operation that only returns a status and may mutate the
store; message is the message field of the JSON response. -/
structure OpResult where
  status : Nat
  message : String
  store : Store
deriving DecidableEq, Repr

/-- Result of applyForJob: HTTP status, response message, the id of the
created application when the response reports one, and the store after. -/
structure ApplyResult where
  status : Nat
  message : String
  appId : Option Nat
  store : Store
deriving DecidableEq, Repr

/-- The system-authored first message of the chat applyForJob seeds: sender
is the job company and the content is the fixed thank-you template. -/
def applyFirstMessage (job : Job) (now : Nat) : Message :=
  { sender := job.company,
    content := "Thank you for applying for " ++ job.title ++
      ". Our team will be in touch and you will be notified via this chat.",
    timestamp := now, isRead := false }

/-- The chat document applyForJob builds (new Chat({...})): keyed by the
saved application id, denormalizing user, company and job, seeded with the
single system message. -/
def applyChat (nextId userId jid : Nat) (job : Job) (now : Nat) : Chat :=
  { id := nextId + 1, applicationId := nextId, userId := userId,
    companyId := job.company, jobId := jid,
    messages := [applyFirstMessage job now] }

/-- applyForJob (applicationController.ts). The request body carries jobId
(checked for presence), coverLetter and resume. chatSaveOk models whether
the store accepts the chat save (a false value stands for an exogenous store
failure on newChat.save(), which the catch block turns into a 500 without
touching the already-saved application). -/
def applyForJob (s : Store) (userId : Nat) (jobId : Option Nat)
    (coverLetter resume : Option String) (now : Nat) (chatSaveOk : Bool) :
    ApplyResult :=
  match jobId with
  | none => ⟨400, "Job ID is required.", none, s⟩
  | some jid =>
    match s.jobs.find? (fun j => j.id == jid) with
    | none => ⟨404, "Job not found.", none, s⟩
    | some job =>
      if job.status ≠ "active" then
        ⟨400, "This job posting is no longer active", none, s⟩
      else if (s.applications.find? (fun a => a.job == jid && a.user == userId)).isSome then
        ⟨400, "You have already applied for this job.", none, s⟩
      else
        let app : Application :=
          { id := s.nextId, job := jid, user := userId, company := job.company,
            coverLetter := coverLetter, resume := resume,
            status := "pending", appliedAt := now }
        match s.insertApplication app with
        | none => ⟨500, "Server error while submitting application.", none, s⟩
        | some s1 =>
          let s2 : Store := { s1 with nextId := s1.nextId + 1 }
          let chat : Chat := applyChat s.nextId userId jid job now
          if chatSaveOk then
            match s2.insertChat chat with
            | none => ⟨500, "Server error while submitting application.", none, s2⟩
            | some s3 =>
              ⟨201, "Application submitted successfully.", some app.id,
                { s3 with nextId := s3.nextId + 1 }⟩
          else ⟨500, "Server error while submitting application.", none, s2⟩

/-- withdrawApplication (applicationController.ts): findOne by _id and user,
then the pending/reviewed gate, then findByIdAndDelete. -/
def withdrawApplication (s : Store) (userId : Nat) (applicationId : Nat) :
    OpResult :=
  match s.applications.find? (fun a => a.id == applicationId && a.user == userId) with
  | none => ⟨404, "Application not found", s⟩
  | some app =>
    if ¬ (["pending", "reviewed"].contains app.status) then
      ⟨400, "Cannot withdraw application with status \"" ++ app.status ++ "\"", s⟩
    else
      ⟨200, "Application withdrawn successfully",
        { s with applications := s.applications.filter (fun a => a.id != applicationId) }⟩

/-- updateApplicationStatus (applicationController.ts): validate the status
string against the enum, findById the application, populate its job (a
dangling job reference makes job.company throw, caught as 500), check the
job belongs to the requesting company, then write the status. -/
def updateApplicationStatus (s : Store) (companyId : Nat) (applicationId : Nat)
    (status : Option String) : OpResult :=
  match status with
  | none => ⟨400, "Invalid status", s⟩
  | some st =>
    if ¬ (appStatusValues.contains st) then ⟨400, "Invalid status", s⟩
    else
      match s.applications.find? (fun a => a.id == applicationId) with
      | none => ⟨404, "Application not found.", s⟩
      | some app =>
        match s.jobs.find? (fun j => j.id == app.job) with
        | none => ⟨500, "Server error while updating application status", s⟩
        | some job =>
          if job.company ≠ companyId then
            ⟨403, "Not authorized to update this application.", s⟩
          else
            ⟨200, "Application status updated successfully",
              { s with applications := s.applications.map (fun a =>
                  if a.id == applicationId then { a with status := st } else a) }⟩

/-- Body of the forEach in markChatAsRead: a message not sent by the caller
and not yet read gets isRead set; every other message is left as is. -/
def markReadOne (currentUserId : Nat) (m : Message) : Message :=
  if m.sender != currentUserId && !m.isRead then { m with isRead := true } else m

/-- Participant check of the chat controller: (req.user && chat.userId !==
req.user.id) || (req.company && chat.companyId !== req.company.id), with
exactly one of req.user / req.company set by the middleware. -/
def chatDenied (actor : Actor) (chat : Chat) : Bool :=
  match actor with
  | .user uid => chat.userId != uid
  | .company cid => chat.companyId != cid

/-- markChatAsRead (chat controller): find the chat, verify the requester is
a participant, then flip isRead on messages from the other party. -/
def markChatAsRead (s : Store) (actor : Actor) (chatId : Nat) : OpResult :=
  match s.chats.find? (fun c => c.id == chatId) with
  | none => ⟨404, "Chat not found", s⟩
  | some chat =>
    if chatDenied actor chat then
      ⟨403, "You do not have permission to access this chat", s⟩
    else
      ⟨200, "Messages marked as read",
        { s with chats := s.chats.map (fun c =>
            if c.id == chatId then
              { c with messages := c.messages.map (markReadOne actor.id) }
            else c) }⟩

/-- A request-body value that is either a JSON string or a JSON array of
strings: Array.isArray distinguishes the two in createJob and updateJob. -/
inductive StrOrList where
  | str (s : String)
  | list (l : List String)
deriving DecidableEq, Repr

/-- JavaScript falsiness of such a value: undefined is modelled by Option
none outside, the empty string is falsy, and every array is truthy. -/
def StrOrList.falsy : StrOrList → Bool
  | .str s => s == ""
  | .list _ => false

/-- String.prototype.split(sep) for a one-character separator. -/
def splitChar (c : Char) (l : List Char) : List (List Char) :=
  l.foldr (fun ch acc =>
    if ch = c then [] :: acc
    else match acc with
      | [] => [[ch]]
      | h :: t => (ch :: h) :: t) [[]]

/-- JS split(sep) on a String value. -/
def jsSplit (sep : Char) (s : String) : List String :=
  (splitChar sep s.toList).map (fun cs => String.mk cs)

/-- Whitespace for String.prototype.trim. -/
def isJsSpace (c : Char) : Bool := c = ' ' || c = '\t' || c = '\n' || c = '\r'

/-- String.prototype.trim. -/
def jsTrim (s : String) : String :=
  String.mk (((s.toList.dropWhile isJsSpace).reverse.dropWhile isJsSpace).reverse)

/-- createJob requirements shaping: Array.isArray(requirements) ?
requirements : [requirements]. -/
def normalizeRequirements : StrOrList → List String
  | .list l => l
  | .str s => [s]

/-- createJob skills shaping: Array.isArray(skills) ? skills :
skills.split(',').map(skill => skill.trim()). -/
def normalizeSkills : StrOrList → List String
  | .list l => l
  | .str s => (jsSplit ',' s).map jsTrim

/-- The createJob request body (fields read out of req.body); none models an
absent field. -/
structure CreateJobBody where
  title : Option String
  location : Option String
  description : Option String
  requirements : Option StrOrList
  type : Option String
  salary : Option String
  applicationLink : Option String
  skills : Option StrOrList
  experience : Option String
  education : Option String
  deadline : Option String
  status : Option String
deriving DecidableEq, Repr

/-- JS falsiness of an optional string field. -/
def strFalsy : Option String → Bool
  | none => true
  | some s => s == ""

/-- JS falsiness of an optional string-or-array field. -/
def solFalsy : Option StrOrList → Bool
  | none => true
  | some v => v.falsy

/-- Result of createJob: status, the created job when any, and the store. -/
structure CreateJobResult where
  status : Nat
  message : String
  job : Option Job
  store : Store
deriving DecidableEq, Repr

/-- createJob (jobController.ts): required-field check, then construction of
the Job with requirements/skills shaping and the status default. -/
def createJob (s : Store) (companyId : Nat) (b : CreateJobBody) (now : Nat) :
    CreateJobResult :=
  if strFalsy b.title || strFalsy b.location || strFalsy b.description ||
      solFalsy b.requirements || strFalsy b.type || solFalsy b.skills ||
      strFalsy b.experience || strFalsy b.education then
    ⟨400, "Missing required fields", none, s⟩
  else
    match b.title, b.location, b.description, b.requirements, b.type, b.skills,
        b.experience, b.education with
    | some title, some location, some description, some reqs, some ty,
        some sks, some experience, some education =>
      let job : Job :=
        { id := s.nextId, company := companyId, title := title,
          location := location, description := description,
          requirements := normalizeRequirements reqs, type := ty,
          salary := b.salary, applicationLink := b.applicationLink,
          skills := normalizeSkills sks, experience := experience,
          education := education, deadline := b.deadline,
          status := (match b.status with
            | some st => if st == "" then "active" else st
            | none => "active"),
          postedAt := now }
      ⟨201, "Job posted successfully", some job,
        { s with jobs := s.jobs ++ [job], nextId := s.nextId + 1 }⟩
    | _, _, _, _, _, _, _, _ => ⟨400, "Missing required fields", none, s⟩

/-- Lower-cased character list of a string, for the case-insensitive regex
filters of getJobs. -/
def lowerChars (s : String) : List Char := s.toList.map Char.toLower

/-- Case-insensitive substring test: the semantics of the Mongo filter
regex-with-option-i built from a query parameter. -/
def ciContains (pat s : String) : Bool := decide (lowerChars pat <:+: lowerChars s)

/-- Query parameters of getJobs (title, location, type, skills as the raw
comma-delimited string, company). -/
structure JobQuery where
  title : Option String
  location : Option String
  type : Option String
  skills : Option String
  company : Option Nat
deriving DecidableEq, Repr

/-- The Mongo filter object getJobs builds: status active always, plus the
optional query filters. -/
def jobMatchesQuery (q : JobQuery) (j : Job) : Bool :=
  j.status == "active" &&
  (match q.title with
    | some t => ciContains t j.title
    | none => true) &&
  (match q.location with
    | some l => ciContains l j.location
    | none => true) &&
  (match q.type with
    | some t => j.type == t
    | none => true) &&
  (match q.skills with
    | some sk => (jsSplit ',' sk).any (fun x => j.skills.contains x)
    | none => true) &&
  (match q.company with
    | some c => j.company == c
    | none => true)

/-- Jobs sorted most recently posted first (sort postedAt -1). -/
def sortByPostedAtDesc (l : List Job) : List Job :=
  l.mergeSort (fun a b => decide (b.postedAt ≤ a.postedAt))

/-- A listing page: the returned jobs plus the total count. -/
structure PageResult where
  jobs : List Job
  totalJobs : Nat
deriving DecidableEq, Repr

/-- getJobs (jobController.ts): filter, count, sort by postedAt descending,
skip (page-1)*limit, limit. -/
def getJobs (s : Store) (q : JobQuery) (page limit : Nat) : PageResult :=
  let filtered := s.jobs.filter (jobMatchesQuery q)
  ⟨((sortByPostedAtDesc filtered).drop ((page - 1) * limit)).take limit,
    filtered.length⟩

/-- searchJobs (jobController.ts): the Mongo text operator over the text
index on title/description/skills/location is store behaviour outside the
repository, so the text predicate and the relevance score are parameters;
the controller conjoins status active onto the text query and sorts by
score descending. -/
def searchJobs (s : Store) (textMatch : Job → Bool) (score : Job → Nat)
    (page limit : Nat) : PageResult :=
  let filtered := s.jobs.filter (fun j => textMatch j && j.status == "active")
  ⟨((filtered.mergeSort (fun a b => decide (score b ≤ score a))).drop
      ((page - 1) * limit)).take limit,
    filtered.length⟩

/-- The Mongo filter object getCompanyJobs builds: the company always; the
status only when the query carries one of the three enum values, an invalid
status string being silently ignored. -/
def companyJobsFilter (companyId : Nat) (statusQ : Option String) (j : Job) :
    Bool :=
  j.company == companyId &&
  (match statusQ with
    | some st => if jobStatusValues.contains st then j.status == st else true
    | none => true)

/-- getCompanyJobs (jobController.ts): company scope, optional status
filter, count, sort, paginate. -/
def getCompanyJobs (s : Store) (companyId : Nat) (statusQ : Option String)
    (page limit : Nat) : PageResult :=
  let filtered := s.jobs.filter (companyJobsFilter companyId statusQ)
  ⟨((sortByPostedAtDesc filtered).drop ((page - 1) * limit)).take limit,
    filtered.length⟩

/-- getJobById (jobController.ts): findById, 404 when absent, otherwise the
job is returned whatever its status is. -/
def getJobById (s : Store) (id : Nat) : Option Job :=
  s.jobs.find? (fun j => j.id == id)

/-- The auth middleware a route mounts: none, authUser, authCompany, or the
role-agnostic auth. -/
inductive AuthMode where
  | public
  | userOnly
  | companyOnly
  | either
deriving DecidableEq, Repr

/-- jobRoutes (src/unnamed/part_001): router.get(':id', getJobById) is
mounted with no auth middleware, among the public routes. -/
def getJobByIdRouteAuth : AuthMode := AuthMode.public

/-- An empty store. -/
def emptyStore : Store := { jobs := [], applications := [], chats := [], nextId := 0 }

/-- A concrete active job, for witnesses. -/
def demoJob : Job :=
  { id := 1, company := 10, title := "Backend Engineer", location := "Remote",
    description := "Build APIs", requirements := ["TS"], type := "Full-Time",
    salary := none, applicationLink := none, skills := ["TypeScript"],
    experience := "2 years", education := "BS", deadline := none,
    status := "active", postedAt := 7 }

/-- A concrete draft job of the same company, for witnesses. -/
def demoJobDraft : Job :=
  { id := 2, company := 10, title := "Frontend Engineer", location := "Onsite",
    description := "Build UIs", requirements := ["JS"], type := "Part-Time",
    salary := none, applicationLink := none, skills := ["React"],
    experience := "1 year", education := "BS", deadline := none,
    status := "draft", postedAt := 9 }

/-- A concrete pending application of user 20 to demoJob, for witnesses. -/
def demoApp : Application :=
  { id := 3, job := 1, user := 20, company := 10, coverLetter := none,
    resume := none, status := "pending", appliedAt := 8 }

/-- The chat paired with demoApp: one unread company message and one user
message, for witnesses. -/
def demoChat : Chat :=
  { id := 4, applicationId := 3, userId := 20, companyId := 10, jobId := 1,
    messages :=
      [{ sender := 10, content := "Thanks for applying", timestamp := 8, isRead := false },
       { sender := 20, content := "Looking forward", timestamp := 9, isRead := false }] }

/-- A concrete store holding the demo documents, for witnesses. -/
def demoStore : Store :=
  { jobs := [demoJob, demoJobDraft], applications := [demoApp],
    chats := [demoChat], nextId := 5 }

/-- createJob body whose requirements and skills are supplied as one
comma-delimited string, for the C9 analysis. -/
def delimitedBody : CreateJobBody :=
  { title := some "Data Engineer", location := some "Remote",
    description := some "Pipelines", requirements := some (.str "Java, SQL"),
    type := some "Full-Time", salary := none, applicationLink := none,
    skills := some (.str "Java, SQL"), experience := some "3 years",
    education := some "BS", deadline := none, status := none }

/-- Mongo findById on a collection of pairwise-distinct ids returns the
member with the requested id. -/
theorem find?_eq_some_of_unique {α : Type} {p : α → Bool} {l : List α} {a : α}
    (ha : a ∈ l) (hpa : p a) (uniq : ∀ b ∈ l, p b → b = a) :
    l.find? p = some a := by
  cases h : l.find? p with
  | none => exact absurd hpa (List.find?_eq_none.mp h a ha)
  | some b =>
    have hba : b = a := uniq b (List.mem_of_find?_eq_some h) (List.find?_some h)
    rw [hba]

/-- C5: apply on an existing job whose status is not active fails with 400
and the InvalidState message, leaves the store untouched, and does so for
every calling user. -/
theorem C5_apply_inactive_job_rejected (s : Store) (userId : Nat) (job : Job)
    (cover resume : Option String) (now : Nat) (chatSaveOk : Bool)
    (hj : job ∈ s.jobs) (huniq : s.jobsUnique) (hst : job.status ≠ "active") :
    (applyForJob s userId (some job.id) cover resume now chatSaveOk).status = 400 ∧
    (applyForJob s userId (some job.id) cover resume now chatSaveOk).message =
      "This job posting is no longer active" ∧
    (applyForJob s userId (some job.id) cover resume now chatSaveOk).store = s := by
  have hfind : s.jobs.find? (fun j => j.id == job.id) = some job :=
    find?_eq_some_of_unique hj (by simp)
      (fun b hb hpb => huniq b hb job hj (by simpa using hpb))
  simp [applyForJob, hfind, hst]

/-- C5 witness: user 20 applying to the draft demo job is rejected with 400
and an unchanged store. -/
theorem C5_witness :
    (applyForJob demoStore 20 (some demoJobDraft.id) none none 0 true).status = 400 ∧
    (applyForJob demoStore 20 (some demoJobDraft.id) none none 0 true).message =
      "This job posting is no longer active" ∧
    (applyForJob demoStore 20 (some demoJobDraft.id) none none 0 true).store = demoStore :=
  C5_apply_inactive_job_rejected demoStore 20 demoJobDraft none none 0 true
    (by decide) (by decide) (by decide)

/-- C10: getJobById returns any stored job by id whatever its status is, and
the route carrying it is mounted without auth middleware, so the lookup is
open to unauthenticated callers. -/
theorem C10_getJobById_public_any_status (s : Store) (job : Job)
    (hj : job ∈ s.jobs) (huniq : s.jobsUnique) :
    getJobById s job.id = some job ∧ getJobByIdRouteAuth = AuthMode.public := by
  refine ⟨?_, rfl⟩
  exact find?_eq_some_of_unique hj (by simp)
    (fun b hb hpb => huniq b hb job hj (by simpa using hpb))

/-- C10 witness: the draft demo job, absent from every public listing, is
returned by id lookup. -/
theorem C10_witness :
    getJobById demoStore demoJobDraft.id = some demoJobDraft ∧
    getJobByIdRouteAuth = AuthMode.public :=
  C10_getJobById_public_any_status demoStore demoJobDraft (by decide) (by decide)

/-- C1: when an application for (job, user) already exists, apply answers
400 with the already-applied message and creates nothing; independently, the
storage-level unique index on (job, user) rejects a duplicate insert. -/
theorem C1_apply_conflict_unique :
    (∀ (s : Store) (userId : Nat) (job : Job) (cover resume : Option String)
        (now : Nat) (chatSaveOk : Bool),
      job ∈ s.jobs → s.jobsUnique → job.status = "active" →
      (∃ a ∈ s.applications, a.job = job.id ∧ a.user = userId) →
      (applyForJob s userId (some job.id) cover resume now chatSaveOk).status = 400 ∧
      (applyForJob s userId (some job.id) cover resume now chatSaveOk).message =
        "You have already applied for this job." ∧
      (applyForJob s userId (some job.id) cover resume now chatSaveOk).store = s) ∧
    (∀ (s : Store) (a : Application),
      (∃ b ∈ s.applications, b.job = a.job ∧ b.user = a.user) →
      s.insertApplication a = none) := by
  constructor
  · intro s userId job cover resume now chatSaveOk hj huniq hact hdup
    have hfind : s.jobs.find? (fun j => j.id == job.id) = some job :=
      find?_eq_some_of_unique hj (by simp)
        (fun b hb hpb => huniq b hb job hj (by simpa using hpb))
    obtain ⟨a, haMem, haJob, haUser⟩ := hdup
    have hsome : (s.applications.find?
        (fun a => a.job == job.id && a.user == userId)).isSome :=
      List.find?_isSome.mpr ⟨a, haMem, by simp [haJob, haUser]⟩
    simp [applyForJob, hfind, hact, hsome]
  · intro s a hdup
    obtain ⟨b, hbMem, hbJob, hbUser⟩ := hdup
    have hany : s.applications.any (fun b => b.job == a.job && b.user == a.user) :=
      List.any_eq_true.mpr ⟨b, hbMem, by simp [hbJob, hbUser]⟩
    simp [Store.insertApplication, hany]

/-- C1 witness: user 20 has already applied to job 1, so a second apply is
answered 400 with nothing created, and a direct duplicate insert is rejected
by the unique index. -/
theorem C1_witness :
    ((applyForJob demoStore 20 (some demoJob.id) none none 0 true).status = 400 ∧
      (applyForJob demoStore 20 (some demoJob.id) none none 0 true).message =
        "You have already applied for this job." ∧
      (applyForJob demoStore 20 (some demoJob.id) none none 0 true).store = demoStore) ∧
    demoStore.insertApplication demoApp = none :=
  ⟨C1_apply_conflict_unique.1 demoStore 20 demoJob none none 0 true
      (by decide) (by decide) (by decide) ⟨demoApp, by decide, by decide, by decide⟩,
    C1_apply_conflict_unique.2 demoStore demoApp ⟨demoApp, by decide, by decide, by decide⟩⟩

/-- C2: withdraw succeeds exactly when the requester owns the application
and its status is pending or reviewed; a non-owner gets 404 (not 403) with
nothing deleted, a wrong status gets 400 with nothing deleted, and success
hard-deletes the application. -/
theorem C2_withdraw_conditions (s : Store) (userId : Nat) (app : Application)
    (ha : app ∈ s.applications) (huniq : s.appsUnique) :
    ((withdrawApplication s userId app.id).status = 200 ↔
      (app.user = userId ∧ app.status ∈ (["pending", "reviewed"] : List String))) ∧
    (app.user ≠ userId →
      (withdrawApplication s userId app.id).status = 404 ∧
      (withdrawApplication s userId app.id).store = s) ∧
    (app.user = userId → app.status ∉ (["pending", "reviewed"] : List String) →
      (withdrawApplication s userId app.id).status = 400 ∧
      (withdrawApplication s userId app.id).store = s) ∧
    ((withdrawApplication s userId app.id).status = 200 →
      (withdrawApplication s userId app.id).store.applications =
        s.applications.filter (fun a => a.id != app.id) ∧
      app ∉ (withdrawApplication s userId app.id).store.applications) := by
  by_cases hu : app.user = userId
  · have hfind : s.applications.find?
        (fun a => a.id == app.id && a.user == userId) = some app :=
      find?_eq_some_of_unique ha (by simp [hu])
        (fun b hb hpb => huniq b hb app ha (by simp at hpb; exact hpb.1))
    by_cases hst : app.status ∈ (["pending", "reviewed"] : List String)
    · refine ⟨?_, ?_, ?_, ?_⟩
      · simp [withdrawApplication, hfind, hst, hu]
      · intro h; exact absurd hu h
      · intro _ h; exact absurd hst h
      · intro _
        constructor
        · simp [withdrawApplication, hfind, hst]
        · simp [withdrawApplication, hfind, hst, List.mem_filter]
    · refine ⟨?_, ?_, ?_, ?_⟩
      · simp [withdrawApplication, hfind, hst, hu]
      · intro h; exact absurd hu h
      · intro _ _; simp [withdrawApplication, hfind, hst]
      · intro h
        exfalso
        have : (withdrawApplication s userId app.id).status = 400 := by
          simp [withdrawApplication, hfind, hst]
        omega
  · have hfind : s.applications.find?
        (fun a => a.id == app.id && a.user == userId) = none := by
      refine List.find?_eq_none.mpr (fun b hb hpb => ?_)
      simp at hpb
      exact absurd (huniq b hb app ha hpb.1 ▸ hpb.2) hu
    refine ⟨?_, ?_, ?_, ?_⟩
    · simp [withdrawApplication, hfind, hu]
    · intro _; simp [withdrawApplication, hfind]
    · intro h; exact absurd h hu
    · intro h
      exfalso
      have : (withdrawApplication s userId app.id).status = 404 := by
        simp [withdrawApplication, hfind]
      omega

/-- C2 witness: the owner withdrawing the pending demo application succeeds,
and the application is gone from the store. -/
theorem C2_witness :
    (withdrawApplication demoStore 20 demoApp.id).status = 200 ∧
    demoApp ∉ (withdrawApplication demoStore 20 demoApp.id).store.applications := by
  have h := C2_withdraw_conditions demoStore 20 demoApp (by decide) (by decide)
  have h200 : (withdrawApplication demoStore 20 demoApp.id).status = 200 :=
    h.1.mpr ⟨rfl, by decide⟩
  exact ⟨h200, (h.2.2.2 h200).2⟩

/-- C3: updateStatus succeeds exactly when the requested status is one of
the five enum values and the application job belongs to the requesting
company; a bad value gives 400, a non-owner 403, and success writes the new
status unconditionally whatever the old status was, touching nothing else. -/
theorem C3_updateStatus_conditions (s : Store) (companyId : Nat)
    (app : Application) (job : Job) (stOpt : Option String)
    (ha : app ∈ s.applications) (hau : s.appsUnique)
    (hj : job ∈ s.jobs) (hju : s.jobsUnique) (hjid : job.id = app.job) :
    ((updateApplicationStatus s companyId app.id stOpt).status = 200 ↔
      ((∃ st, stOpt = some st ∧ st ∈ appStatusValues) ∧ job.company = companyId)) ∧
    (stOpt = none →
      (updateApplicationStatus s companyId app.id stOpt).status = 400 ∧
      (updateApplicationStatus s companyId app.id stOpt).store = s) ∧
    (∀ st, stOpt = some st → st ∉ appStatusValues →
      (updateApplicationStatus s companyId app.id stOpt).status = 400 ∧
      (updateApplicationStatus s companyId app.id stOpt).store = s) ∧
    (∀ st, stOpt = some st → st ∈ appStatusValues → job.company ≠ companyId →
      (updateApplicationStatus s companyId app.id stOpt).status = 403 ∧
      (updateApplicationStatus s companyId app.id stOpt).store = s) ∧
    (∀ st, stOpt = some st →
      (updateApplicationStatus s companyId app.id stOpt).status = 200 →
      (updateApplicationStatus s companyId app.id stOpt).store.jobs = s.jobs ∧
      (updateApplicationStatus s companyId app.id stOpt).store.chats = s.chats ∧
      (updateApplicationStatus s companyId app.id stOpt).store.applications =
        s.applications.map
          (fun a => if a.id == app.id then { a with status := st } else a) ∧
      ∃ app2 ∈ (updateApplicationStatus s companyId app.id stOpt).store.applications,
        app2.id = app.id ∧ app2.status = st ∧ app2.job = app.job ∧
        app2.user = app.user ∧ app2.company = app.company) := by
  have hfindA : s.applications.find? (fun a => a.id == app.id) = some app :=
    find?_eq_some_of_unique ha (by simp)
      (fun b hb hpb => hau b hb app ha (by simpa using hpb))
  have hfindJ : s.jobs.find? (fun j => j.id == app.job) = some job :=
    find?_eq_some_of_unique hj (by simp [hjid])
      (fun b hb hpb => hju b hb job hj (by simp at hpb; omega))
  cases stOpt with
  | none =>
    refine ⟨?_, ?_, ?_, ?_, ?_⟩
    · simp [updateApplicationStatus]
    · intro _; simp [updateApplicationStatus]
    · intro st hsome; exact absurd hsome (by simp)
    · intro st hsome; exact absurd hsome (by simp)
    · intro st hsome; exact absurd hsome (by simp)
  | some st =>
    by_cases hin : st ∈ appStatusValues
    · by_cases hc : job.company = companyId
      · refine ⟨?_, ?_, ?_, ?_, ?_⟩
        · simp [updateApplicationStatus, hfindA, hfindJ, hin, hc]
        · intro h; cases h
        · intro st2 hsome hout
          cases hsome
          exact absurd hin hout
        · intro st2 hsome _ hne
          exact absurd hc hne
        · intro st2 hsome _
          cases hsome
          have hmap : (updateApplicationStatus s companyId app.id (some st)).store.applications
              = s.applications.map
                (fun a => if a.id == app.id then { a with status := st } else a) := by
            simp [updateApplicationStatus, hfindA, hfindJ, hin, hc]
          refine ⟨?_, ?_, ?_, ?_⟩
          · simp [updateApplicationStatus, hfindA, hfindJ, hin, hc]
          · simp [updateApplicationStatus, hfindA, hfindJ, hin, hc]
          · exact hmap
          · refine ⟨{ app with status := st }, ?_, by simp, by simp, by simp, by simp, by simp⟩
            rw [hmap]
            have happ : ({ app with status := st } : Application) =
                (fun a => if a.id == app.id then { a with status := st } else a) app := by
              simp
            rw [happ]
            exact List.mem_map_of_mem _ ha
      · refine ⟨?_, ?_, ?_, ?_, ?_⟩
        · simp [updateApplicationStatus, hfindA, hfindJ, hin, hc]
        · intro h; cases h
        · intro st2 hsome hout
          cases hsome
          exact absurd hin hout
        · intro st2 hsome _ _
          cases hsome
          simp [updateApplicationStatus, hfindA, hfindJ, hin, hc]
        · intro st2 hsome h200
          exfalso
          have : (updateApplicationStatus s companyId app.id (some st)).status = 403 := by
            simp [updateApplicationStatus, hfindA, hfindJ, hin, hc]
          omega
    · refine ⟨?_, ?_, ?_, ?_, ?_⟩
      · constructor
        · intro h200
          exfalso
          have : (updateApplicationStatus s companyId app.id (some st)).status = 400 := by
            simp [updateApplicationStatus, hin]
          omega
        · rintro ⟨⟨st2, hsome, hin2⟩, _⟩
          cases hsome
          exact absurd hin2 hin
      · intro h; cases h
      · intro st2 hsome _
        cases hsome
        simp [updateApplicationStatus, hin]
      · intro st2 hsome hin2
        cases hsome
        exact absurd hin2 hin
      · intro st2 hsome h200
        exfalso
        have : (updateApplicationStatus s companyId app.id (some st)).status = 400 := by
          simp [updateApplicationStatus, hin]
        omega

/-- C3 witness: the owning company moving the pending demo application to
interviewing succeeds, an out-of-enum value is rejected with 400, and a
non-owning company gets 403. -/
theorem C3_witness :
    (updateApplicationStatus demoStore 10 demoApp.id (some "interviewing")).status = 200 ∧
    (updateApplicationStatus demoStore 10 demoApp.id (some "archived")).status = 400 ∧
    (updateApplicationStatus demoStore 99 demoApp.id (some "interviewing")).status = 403 := by
  have h10 := C3_updateStatus_conditions demoStore 10 demoApp demoJob
    (some "interviewing") (by decide) (by decide) (by decide) (by decide) (by decide)
  have hbad := C3_updateStatus_conditions demoStore 10 demoApp demoJob
    (some "archived") (by decide) (by decide) (by decide) (by decide) (by decide)
  have h99 := C3_updateStatus_conditions demoStore 99 demoApp demoJob
    (some "interviewing") (by decide) (by decide) (by decide) (by decide) (by decide)
  refine ⟨?_, ?_, ?_⟩
  · exact h10.1.mpr ⟨⟨"interviewing", rfl, by decide⟩, by decide⟩
  · exact (hbad.2.2.1 "archived" rfl (by decide)).1
  · exact (h99.2.2.2.1 "interviewing" rfl (by decide) (by decide)).1

/-- C7: markRead called by a participant answers 200 and rewrites the chat
messages pointwise with markReadOne, which flips isRead exactly on messages
from the other party that were unread and leaves every message authored by
the caller (and every already-read message) untouched; other chats are not
touched. -/
theorem C7_markRead_flips_other_party_unread (s : Store) (actor : Actor)
    (chat : Chat) (hc : chat ∈ s.chats) (hu : s.chatsUnique)
    (hpart : (match actor with
      | .user uid => chat.userId = uid
      | .company cid => chat.companyId = cid)) :
    (markChatAsRead s actor chat.id).status = 200 ∧
    (∀ c ∈ s.chats, c.id ≠ chat.id → c ∈ (markChatAsRead s actor chat.id).store.chats) ∧
    (∃ chat2 ∈ (markChatAsRead s actor chat.id).store.chats,
      chat2.id = chat.id ∧ chat2.applicationId = chat.applicationId ∧
      chat2.userId = chat.userId ∧ chat2.companyId = chat.companyId ∧
      chat2.jobId = chat.jobId ∧
      chat2.messages = chat.messages.map (markReadOne actor.id)) ∧
    (∀ m : Message, m.sender = actor.id → markReadOne actor.id m = m) ∧
    (∀ m : Message, m.sender ≠ actor.id → m.isRead = false →
      markReadOne actor.id m = { m with isRead := true }) ∧
    (∀ m : Message, m.sender ≠ actor.id → m.isRead = true →
      markReadOne actor.id m = m) := by
  have hfind : s.chats.find? (fun c => c.id == chat.id) = some chat :=
    find?_eq_some_of_unique hc (by simp)
      (fun b hb hpb => hu b hb chat hc (by simpa using hpb))
  have hdenied : chatDenied actor chat = false := by
    cases actor with
    | user uid => simpa [chatDenied] using hpart
    | company cid => simpa [chatDenied] using hpart
  have hstore : (markChatAsRead s actor chat.id).store.chats =
      s.chats.map (fun c => if c.id == chat.id then
        { c with messages := c.messages.map (markReadOne actor.id) } else c) := by
    simp [markChatAsRead, hfind, hdenied]
  refine ⟨?_, ?_, ?_, ?_, ?_, ?_⟩
  · simp [markChatAsRead, hfind, hdenied]
  · intro c hcm hne
    rw [hstore]
    have hcfix : c = (fun c2 => if c2.id == chat.id then
        { c2 with messages := c2.messages.map (markReadOne actor.id) } else c2) c := by
      simp [hne]
    rw [hcfix]
    exact List.mem_map_of_mem _ hcm
  · refine ⟨{ chat with messages := chat.messages.map (markReadOne actor.id) },
      ?_, by simp, by simp, by simp, by simp, by simp, by simp⟩
    rw [hstore]
    have hcfix : ({ chat with messages := chat.messages.map (markReadOne actor.id) } : Chat) =
        (fun c2 => if c2.id == chat.id then
          { c2 with messages := c2.messages.map (markReadOne actor.id) } else c2) chat := by
      simp
    rw [hcfix]
    exact List.mem_map_of_mem _ hc
  · intro m hm; simp [markReadOne, hm]
  · intro m hm hr; simp [markReadOne, hm, hr]
  · intro m hm hr; simp [markReadOne, hm, hr]

/-- C7 witness: user 20, a participant of the demo chat, marks it read; the
company message flips to read and the user message is untouched. -/
theorem C7_witness :
    (markChatAsRead demoStore (Actor.user 20) demoChat.id).status = 200 ∧
    markReadOne (Actor.user 20).id
      { sender := 10, content := "Thanks for applying", timestamp := 8, isRead := false } =
      { sender := 10, content := "Thanks for applying", timestamp := 8, isRead := true } ∧
    markReadOne (Actor.user 20).id
      { sender := 20, content := "Looking forward", timestamp := 9, isRead := false } =
      { sender := 20, content := "Looking forward", timestamp := 9, isRead := false } := by
  have h := C7_markRead_flips_other_party_unread demoStore (Actor.user 20) demoChat
    (by decide) (by decide) (by decide)
  refine ⟨h.1, ?_, ?_⟩
  · exact h.2.2.2.2.1 _ (by decide) rfl
  · exact h.2.2.2.1 _ rfl

/-- C8: once the application save during apply has gone through, the
application stays in the store whatever happens to the chat save: a chat
failure only turns the response into a 500, it never rolls the application
back. -/
theorem C8_application_persists_on_chat_failure (s : Store) (userId jid : Nat)
    (cover resume : Option String) (now : Nat) (chatSaveOk : Bool) (job : Job)
    (hfind : s.jobs.find? (fun j => j.id == jid) = some job)
    (hact : job.status = "active")
    (hnodup : ∀ a ∈ s.applications, ¬(a.job = jid ∧ a.user = userId)) :
    ∃ app,
      (applyForJob s userId (some jid) cover resume now chatSaveOk).store.applications =
        s.applications ++ [app] ∧
      app.job = jid ∧ app.user = userId ∧ app.status = "pending" ∧
      app.company = job.company ∧
      ((applyForJob s userId (some jid) cover resume now chatSaveOk).status = 201 ∨
        (applyForJob s userId (some jid) cover resume now chatSaveOk).status = 500) ∧
      (chatSaveOk = false →
        (applyForJob s userId (some jid) cover resume now chatSaveOk).status = 500) := by
  have hdupn : s.applications.find? (fun a => a.job == jid && a.user == userId) = none :=
    List.find?_eq_none.mpr (fun a ha => by simpa using hnodup a ha)
  have hany : s.applications.any (fun b => b.job == jid && b.user == userId) = false := by
    rw [List.any_eq_false]
    intro a ha
    simpa using hnodup a ha
  refine ⟨{ id := s.nextId, job := jid, user := userId, company := job.company,
            coverLetter := cover, resume := resume, status := "pending",
            appliedAt := now },
    ?_, rfl, rfl, rfl, rfl, ?_, ?_⟩
  · cases chatSaveOk with
    | false => simp [applyForJob, hfind, hact, hdupn, Store.insertApplication, hany]
    | true =>
      by_cases hcany : ∃ x ∈ s.chats, x.applicationId = s.nextId
      · simp [applyForJob, hfind, hact, hdupn, Store.insertApplication, hany,
          Store.insertChat, applyChat, hcany]
      · simp [applyForJob, hfind, hact, hdupn, Store.insertApplication, hany,
          Store.insertChat, applyChat, hcany]
  · cases chatSaveOk with
    | false =>
      right
      simp [applyForJob, hfind, hact, hdupn, Store.insertApplication, hany]
    | true =>
      by_cases hcany : ∃ x ∈ s.chats, x.applicationId = s.nextId
      · right
        simp [applyForJob, hfind, hact, hdupn, Store.insertApplication, hany,
          Store.insertChat, applyChat, hcany]
      · left
        simp [applyForJob, hfind, hact, hdupn, Store.insertApplication, hany,
          Store.insertChat, applyChat, hcany]
  · intro hfalse
    cases hfalse
    simp [applyForJob, hfind, hact, hdupn, Store.insertApplication, hany]

/-- C8 witness: user 21 applies to job 1 while the chat save fails; the
response is a 500 yet the new application is in the store. -/
theorem C8_witness :
    (applyForJob demoStore 21 (some 1) none none 0 false).status = 500 ∧
    (applyForJob demoStore 21 (some 1) none none 0 false).store.applications.length = 2 := by
  obtain ⟨app, happs, _, _, _, _, _, h500⟩ :=
    C8_application_persists_on_chat_failure demoStore 21 1 none none 0 false demoJob
      (by decide) (by decide) (by decide)
  refine ⟨h500 rfl, ?_⟩
  rw [happs]
  simp [demoStore]

/-- C4: a successful apply leaves exactly one chat keyed by the created
application id, and that chat holds exactly one message, authored by the
company owning the job. -/
theorem C4_apply_creates_single_chat (s : Store) (userId jid : Nat)
    (cover resume : Option String) (now : Nat)
    (h201 : (applyForJob s userId (some jid) cover resume now true).status = 201) :
    ∃ aid job chat,
      (applyForJob s userId (some jid) cover resume now true).appId = some aid ∧
      s.jobs.find? (fun j => j.id == jid) = some job ∧
      (applyForJob s userId (some jid) cover resume now true).store.chats.filter
        (fun c => c.applicationId == aid) = [chat] ∧
      chat.messages.length = 1 ∧
      (chat.messages.filter (fun m => m.sender == job.company)).length = 1 := by
  cases hjf : s.jobs.find? (fun j => j.id == jid) with
  | none => simp [applyForJob, hjf] at h201
  | some job =>
    by_cases hact : job.status = "active"
    · by_cases hdup : (s.applications.find?
          (fun a => a.job == jid && a.user == userId)).isSome = true
      · simp [applyForJob, hjf, hact, hdup] at h201
      · by_cases hany : s.applications.any
            (fun b => b.job == jid && b.user == userId) = true
        · simp [applyForJob, hjf, hact, hdup, Store.insertApplication, hany] at h201
        · by_cases hcany : ∃ x ∈ s.chats, x.applicationId = s.nextId
          · simp [applyForJob, hjf, hact, hdup, Store.insertApplication, hany,
              Store.insertChat, applyChat, hcany] at h201
          · refine ⟨s.nextId, job, applyChat s.nextId userId jid job now,
              ?_, rfl, ?_, rfl, ?_⟩
            · simp [applyForJob, hjf, hact, hdup, Store.insertApplication, hany,
                Store.insertChat, applyChat, hcany]
            · have hchats : (applyForJob s userId (some jid) cover resume now true).store.chats =
                  s.chats ++ [applyChat s.nextId userId jid job now] := by
                simp [applyForJob, hjf, hact, hdup, Store.insertApplication, hany,
                  Store.insertChat, applyChat, hcany]
              rw [hchats, List.filter_append]
              have hnil : s.chats.filter (fun c => c.applicationId == s.nextId) = [] := by
                rw [List.filter_eq_nil_iff]
                intro c hcm hbeq
                exact hcany ⟨c, hcm, by simpa using hbeq⟩
              rw [hnil]
              simp [applyChat]
            · simp [applyChat, applyFirstMessage]
    · simp [applyForJob, hjf, hact] at h201

/-- C4 witness: user 21 applies to job 1 and exactly one chat keyed by the
new application id 5 exists afterwards. -/
theorem C4_witness :
    ((applyForJob demoStore 21 (some 1) none none 0 true).store.chats.filter
      (fun c => c.applicationId == 5)).length = 1 := by
  obtain ⟨aid, job, chat, h1, _, h3, h4, _⟩ :=
    C4_apply_creates_single_chat demoStore 21 1 none none 0 (by decide)
  have haid : aid = 5 := by
    have h5 : (applyForJob demoStore 21 (some 1) none none 0 true).appId = some 5 := by
      decide
    rw [h1] at h5
    exact Option.some.inj h5
  rw [haid] at h3
  rw [h3]
  rfl

/-- A job on a returned page came from the filtered collection. -/
theorem mem_of_mem_page {l : List Job} {j : Job} {skip limit : Nat}
    (h : j ∈ (l.drop skip).take limit) : j ∈ l :=
  List.drop_subset skip l (List.take_subset limit (l.drop skip) h)

/-- C6: the public listing and the text search only ever return active jobs;
getCompanyJobs returns the owning company's jobs of every status when no
status filter is given (all of them on a large enough page), restricts to
the requested status when a valid one is given, and never leaks another
company's jobs. -/
theorem C6_public_listing_active_only :
    (∀ (s : Store) (q : JobQuery) (page limit : Nat) (j : Job),
      j ∈ (getJobs s q page limit).jobs → j.status = "active") ∧
    (∀ (s : Store) (textMatch : Job → Bool) (score : Job → Nat)
        (page limit : Nat) (j : Job),
      j ∈ (searchJobs s textMatch score page limit).jobs → j.status = "active") ∧
    (∀ (s : Store) (cid : Nat) (j : Job), j ∈ s.jobs → j.company = cid →
      j ∈ (getCompanyJobs s cid none 1 s.jobs.length).jobs) ∧
    (∀ (s : Store) (cid : Nat) (stQ : Option String) (page limit : Nat) (j : Job),
      j ∈ (getCompanyJobs s cid stQ page limit).jobs → j.company = cid) ∧
    (∀ (s : Store) (cid : Nat) (st : String) (page limit : Nat) (j : Job),
      st ∈ jobStatusValues → j ∈ (getCompanyJobs s cid (some st) page limit).jobs →
      j.status = st) := by
  refine ⟨?_, ?_, ?_, ?_, ?_⟩
  · intro s q page limit j hmem
    have hsorted : j ∈ sortByPostedAtDesc (s.jobs.filter (jobMatchesQuery q)) :=
      mem_of_mem_page hmem
    have hfilter : j ∈ s.jobs.filter (jobMatchesQuery q) :=
      (List.mergeSort_perm _ _).mem_iff.mp hsorted
    have hq := (List.mem_filter.mp hfilter).2
    simp [jobMatchesQuery] at hq
    tauto
  · intro s textMatch score page limit j hmem
    have hfilter : j ∈ s.jobs.filter (fun j => textMatch j && j.status == "active") :=
      (List.mergeSort_perm _ _).mem_iff.mp (mem_of_mem_page hmem)
    have hq := (List.mem_filter.mp hfilter).2
    simp at hq
    exact hq.2
  · intro s cid j hj hcid
    have hfilter : j ∈ s.jobs.filter (companyJobsFilter cid none) :=
      List.mem_filter.mpr ⟨hj, by simp [companyJobsFilter, hcid]⟩
    have hsorted : j ∈ sortByPostedAtDesc (s.jobs.filter (companyJobsFilter cid none)) :=
      (List.mergeSort_perm _ _).mem_iff.mpr hfilter
    have hlen : (sortByPostedAtDesc (s.jobs.filter (companyJobsFilter cid none))).length ≤
        s.jobs.length := by
      rw [sortByPostedAtDesc, (List.mergeSort_perm _ _).length_eq]
      exact List.length_filter_le _ _
    simp only [getCompanyJobs]
    rw [Nat.sub_self, Nat.zero_mul, List.drop_zero, List.take_of_length_le hlen]
    exact hsorted
  · intro s cid stQ page limit j hmem
    have hfilter : j ∈ s.jobs.filter (companyJobsFilter cid stQ) :=
      (List.mergeSort_perm _ _).mem_iff.mp (mem_of_mem_page hmem)
    have hq := (List.mem_filter.mp hfilter).2
    simp [companyJobsFilter] at hq
    exact hq.1
  · intro s cid st page limit j hst hmem
    have hfilter : j ∈ s.jobs.filter (companyJobsFilter cid (some st)) :=
      (List.mergeSort_perm _ _).mem_iff.mp (mem_of_mem_page hmem)
    have hq := (List.mem_filter.mp hfilter).2
    simp [companyJobsFilter, hst] at hq
    exact hq.2

/-- C6 witness: the company listing without a status filter returns the
draft demo job on a full page, and every such member belongs to company 10. -/
theorem C6_witness :
    demoJobDraft ∈ (getCompanyJobs demoStore 10 none 1 demoStore.jobs.length).jobs ∧
    demoJobDraft.company = 10 := by
  have h3 := C6_public_listing_active_only.2.2.1 demoStore 10 demoJobDraft
    (by decide) (by decide)
  exact ⟨h3, C6_public_listing_active_only.2.2.2.1 demoStore 10 none 1
    demoStore.jobs.length demoJobDraft h3⟩

/-- A non-falsy optional string field is present. -/
theorem strFalsy_false {o : Option String} (h : ¬ strFalsy o = true) :
    ∃ s, o = some s := by
  cases o with
  | none => exact absurd rfl h
  | some s => exact ⟨s, rfl⟩

/-- A non-falsy optional string-or-array field is present. -/
theorem solFalsy_false {o : Option StrOrList} (h : ¬ solFalsy o = true) :
    ∃ v, o = some v := by
  cases o with
  | none => exact absurd rfl h
  | some v => exact ⟨v, rfl⟩

/-- C9 counterexample: with requirements supplied as the delimited string
"Java, SQL", createJob stores the one-element list holding the whole
string, not the list of the delimited items. -/
theorem C9_counterexample :
    (createJob emptyStore 10 delimitedBody 0).job.map Job.requirements =
      some ["Java, SQL"] ∧
    (createJob emptyStore 10 delimitedBody 0).job.map Job.requirements ≠
      some ["Java", "SQL"] := by
  constructor
  · rfl
  · decide

/-- C9 amended: createJob always stores requirements and skills in list
form; an array input is stored as given for both, a skills string is split
on commas with every item trimmed, while a requirements string is wrapped
whole as a one-element list, without splitting. -/
theorem C9_normalization (s : Store) (cid : Nat) (b : CreateJobBody) (now : Nat)
    (j : Job) (hj : (createJob s cid b now).job = some j) :
    (∃ reqs, b.requirements = some reqs ∧
      j.requirements = normalizeRequirements reqs ∧
      (∀ l, reqs = StrOrList.list l → j.requirements = l) ∧
      (∀ str, reqs = StrOrList.str str → j.requirements = [str])) ∧
    (∃ sks, b.skills = some sks ∧
      j.skills = normalizeSkills sks ∧
      (∀ l, sks = StrOrList.list l → j.skills = l) ∧
      (∀ str, sks = StrOrList.str str → j.skills = (jsSplit ',' str).map jsTrim)) := by
  by_cases hguard : (strFalsy b.title || strFalsy b.location ||
      strFalsy b.description || solFalsy b.requirements || strFalsy b.type ||
      solFalsy b.skills || strFalsy b.experience || strFalsy b.education) = true
  · simp [createJob, hguard] at hj
  · have h := hguard
    simp only [Bool.or_eq_true, not_or] at h
    obtain ⟨⟨⟨⟨⟨⟨⟨h1, h2⟩, h3⟩, h4⟩, h5⟩, h6⟩, h7⟩, h8⟩ := h
    obtain ⟨title, ht⟩ := strFalsy_false h1
    obtain ⟨location, hl⟩ := strFalsy_false h2
    obtain ⟨description, hd⟩ := strFalsy_false h3
    obtain ⟨reqs, hr⟩ := solFalsy_false h4
    obtain ⟨ty2, hty⟩ := strFalsy_false h5
    obtain ⟨sks, hsk⟩ := solFalsy_false h6
    obtain ⟨experience, he⟩ := strFalsy_false h7
    obtain ⟨education, hed⟩ := strFalsy_false h8
    simp only [createJob] at hj
    rw [if_neg hguard, ht, hl, hd, hr, hty, hsk, he, hed] at hj
    injection hj with hj
    subst hj
    refine ⟨⟨reqs, hr, rfl, ?_, ?_⟩, ⟨sks, hsk, rfl, ?_, ?_⟩⟩
    · intro l hrl; rw [hrl]; rfl
    · intro str hrs; rw [hrs]; rfl
    · intro l hsl; rw [hsl]; rfl
    · intro str hss; rw [hss]; rfl

/-- C9 witness: on the delimited demo body the stored requirements are the
unsplit singleton and the stored skills are the split and trimmed items. -/
theorem C9_witness :
    (createJob emptyStore 10 delimitedBody 0).job.map Job.requirements =
      some ["Java, SQL"] ∧
    (createJob emptyStore 10 delimitedBody 0).job.map Job.skills =
      some ["Java", "SQL"] := by
  cases hj : (createJob emptyStore 10 delimitedBody 0).job with
  | none => exact absurd hj (by decide)
  | some j =>
    obtain ⟨⟨reqs, hr, _, _, hreqstr⟩, ⟨sks, hsk, _, _, hskstr⟩⟩ :=
      C9_normalization emptyStore 10 delimitedBody 0 j hj
    have hreq : reqs = StrOrList.str "Java, SQL" := by
      have : delimitedBody.requirements = some (StrOrList.str "Java, SQL") := rfl
      rw [this] at hr
      exact (Option.some.inj hr).symm
    have hskv : sks = StrOrList.str "Java, SQL" := by
      have : delimitedBody.skills = some (StrOrList.str "Java, SQL") := rfl
      rw [this] at hsk
      exact (Option.some.inj hsk).symm
    constructor
    · simp [hj, hreqstr "Java, SQL" hreq]
    · simp [hj, hskstr "Java, SQL" hskv]
      decide

end JobBoard
